import Mathlib

/-!
Verification of the UniTrade order-execution service ("the Executor").

Shallow embedding of the orchestration core found in the service class
(order pool registry, execution decision engine, failure circuit
breaker, event handlers, shutdown coordinator).  JavaScript objects used
as string/number keyed maps are embedded as association lists; the
`BN` arbitrary-precision arithmetic is embedded as `Nat`; asynchronous
collaborator calls (profitability, gas estimate, gas price, execution)
are embedded as explicit inputs to the functions that await them; the
Node timer API (`setTimeout` / timer callback) is embedded as an
explicit set of pending timer identifiers plus the stored reference.
-/

namespace UniTrade

/-- Exit codes of the service (`ExitCodes` enum in `lib/types`). -/
def ExitCodes.Success : Nat := 0

/-- `ExitCodes.GenericError = 1`. -/
def ExitCodes.GenericError : Nat := 1

/-- `ExitCodes.TooManyFailures = 2`. -/
def ExitCodes.TooManyFailures : Nat := 2

/-- `ExitCodes.TooMuchGasLost = 3`. -/
def ExitCodes.TooMuchGasLost : Nat := 3

/-- Order lifecycle states (`OrderState` enum in `lib/types`):
`Placed = 0`, `Cancelled = 1`, `Executed = 2`. -/
def OrderState.Placed : Nat := 0

/-- `OrderState.Cancelled = 1`. -/
def OrderState.Cancelled : Nat := 1

/-- `OrderState.Executed = 2`. -/
def OrderState.Executed : Nat := 2

/-- An order as carried by event payloads (`IUniTradeOrder` in `lib/types`). -/
structure Order where
  orderId : Nat
  orderType : Nat
  maker : String
  tokenIn : String
  tokenOut : String
  amountInOffered : Nat
  amountOutExpected : Nat
  executorFee : Nat
  totalEthDeposited : Nat
  orderState : Nat
  deflationary : Bool
deriving Repr, DecidableEq

/-- A transaction receipt as consumed by the circuit breaker
(`receipt.gasUsed` may be absent, in which case the code uses
`receipt.gasUsed || 0`). -/
structure Receipt where
  transactionHash : String
  gasUsed : Option Nat
deriving Repr, DecidableEq

/-- Lookup in a JavaScript object embedded as an association list. -/
def assocFind {α β : Type} [DecidableEq α] (key : α) (l : List (α × β)) : Option β :=
  (l.find? (fun e => e.1 = key)).map (fun e => e.2)

/-- `obj[key] = v` on a JavaScript object: replace an existing entry in
place, or append a new one. -/
def assocSet {α β : Type} [DecidableEq α] (key : α) (v : β) (l : List (α × β)) :
    List (α × β) :=
  if (l.find? (fun e => e.1 = key)).isSome then
    l.map (fun e => if e.1 = key then (key, v) else e)
  else l ++ [(key, v)]

/-- `delete obj[key]` on a JavaScript object. -/
def assocErase {α β : Type} [DecidableEq α] (key : α) (l : List (α × β)) :
    List (α × β) :=
  l.filter (fun e => e.1 ≠ key)

/-- Modelled from the spec: the `TokenPool` class (imported from
`lib/classes`, whose source is not part of the repository snapshot).
Per the spec a market pool is "keyed by a canonical trading-pair
address; owns a mapping from order identifier to Order", with
`addOrder`, `removeOrder` (no-op if absent) and an order-count
accessor. -/
structure TokenPool where
  pairAddress : String
  orders : List (Nat × Order)
deriving Repr, DecidableEq

/-- Modelled from the spec: insert (or overwrite) the entry for
`orderId` in the pool's order map. -/
def TokenPool.addOrder (p : TokenPool) (orderId : Nat) (o : Order) : TokenPool :=
  { p with orders := assocSet orderId o p.orders }

/-- Modelled from the spec: delete the entry for `orderId`; a no-op when
no such entry exists. -/
def TokenPool.removeOrder (p : TokenPool) (orderId : Nat) : TokenPool :=
  { p with orders := assocErase orderId p.orders }

/-- Modelled from the spec: number of orders currently in the pool. -/
def TokenPool.getOrderCount (p : TokenPool) : Nat :=
  p.orders.length

/-- The mutable bookkeeping state of the service instance: the fields of
`UniTradeExecutorService`.  Keyed objects become association lists /
membership lists; `EventEmitter` handles are represented by the key
being present in the corresponding listener list.  `activeTimers` is the
set of `setTimeout` timers currently pending (not yet fired); the code
stores the most recent one in `failedTxnTimer` and never calls
`clearTimeout`. -/
structure ServiceState where
  orderLocks : List Nat
  badOrderMap : List (Nat × Nat)
  pools : List (String × TokenPool)
  poolListeners : List String
  orderListeners : List String
  failureListener : Bool
  failedTxnCount : Nat
  failedTxnGasCost : Nat
  failedTxnTimer : Option Nat
  activeTimers : List Nat
deriving Repr, DecidableEq

/-- The configuration surface the embedded core reads
(`config` from environment variables).  The numeric env strings are
embedded as `Nat`; the `config.maxFailure* && …` truthiness guards are
embedded via `Option Nat` (`none` = falsy/absent). -/
structure Config where
  badOrderRetry : Nat
  maxFailureCount : Option Nat
  maxFailureGasCost : Option Nat
  maxFailureDuration : Option Nat
  resetTimerOnFailure : Bool
  failureShutdownWebhookUrl : String
deriving Repr, DecidableEq

/-- `this.pools[pairAddress]` lookup. -/
def lookupPool (st : ServiceState) (pair : String) : Option TokenPool :=
  assocFind pair st.pools

/-- `this.pools[pairAddress] = p` assignment. -/
def setPool (st : ServiceState) (pair : String) (p : TokenPool) : ServiceState :=
  { st with pools := assocSet pair p st.pools }

/-- `this.badOrderMap[orderId]` lookup. -/
def lookupBad (st : ServiceState) (orderId : Nat) : Option Nat :=
  assocFind orderId st.badOrderMap

/-- `this.badOrderMap[orderId] = n` assignment. -/
def setBad (st : ServiceState) (orderId : Nat) (n : Nat) : ServiceState :=
  { st with badOrderMap := assocSet orderId n st.badOrderMap }

/-- `lockOrder`: `this.orderLocks[orderId] = true` (the set of keys with
a true value, so setting an already-present key changes nothing). -/
def lockOrder (st : ServiceState) (orderId : Nat) : ServiceState :=
  { st with orderLocks :=
      if orderId ∈ st.orderLocks then st.orderLocks else st.orderLocks ++ [orderId] }

/-- `unlockOrder`: `if (this.orderLocks[orderId]) delete this.orderLocks[orderId]`. -/
def unlockOrder (st : ServiceState) (orderId : Nat) : ServiceState :=
  { st with orderLocks := st.orderLocks.filter (fun i => i ≠ orderId) }

/-- `getOrCreatePool`: returns the pool for `pairAddress`, creating it
(and, as a side effect, its pool-change listener via
`createPoolChangeListener`, i.e. `this.poolListeners[pairAddress] = …`)
when absent. -/
def getOrCreatePool (st : ServiceState) (pair : String) : ServiceState × TokenPool :=
  match lookupPool st pair with
  | some p => (st, p)
  | none =>
    let p : TokenPool := { pairAddress := pair, orders := [] }
    let st := setPool st pair p
    let st := { st with poolListeners :=
      if pair ∈ st.poolListeners then st.poolListeners else st.poolListeners ++ [pair] }
    (st, p)

/-- `addPoolOrder`: resolve the pair address for the order (the external
`getPairAddress` collaborator is embedded as the function `pairOf`),
get-or-create that pool and add the order to it. -/
def addPoolOrder (pairOf : Order → String) (st : ServiceState) (orderId : Nat)
    (o : Order) : ServiceState :=
  let pair := pairOf o
  let r := getOrCreatePool st pair
  setPool r.1 pair (r.2.addOrder orderId o)

/-- `removePoolOrder`: resolve the pair address; if a pool exists for
it, remove the order from that pool.  The pool itself is left in the
registry even when it becomes empty. -/
def removePoolOrder (pairOf : Order → String) (st : ServiceState) (orderId : Nat)
    (o : Order) : ServiceState :=
  let pair := pairOf o
  match lookupPool st pair with
  | some pool => setPool st pair (pool.removeOrder orderId)
  | none => st

/-- `handleFailedExecution(receipt)`, the circuit breaker's failure
recorder.  Returns the new state together with the list of exit codes
passed to `handleError` (i.e. the shutdown requests raised), in program
order.  `fresh` is the identifier `setTimeout` would assign to a newly
created timer; the code stores the new timer in `failedTxnTimer`
without ever calling `clearTimeout` on the previous one, which the
embedding records by leaving the old identifier in `activeTimers`. -/
def handleFailedExecution (cfg : Config) (fresh : Nat) (receipt : Option Receipt)
    (st : ServiceState) : ServiceState × List Nat :=
  match receipt with
  | none => (st, [])
  | some r =>
    let st := { st with
      failedTxnCount := st.failedTxnCount + 1,
      failedTxnGasCost := st.failedTxnGasCost + r.gasUsed.getD 0 }
    let codes :=
      (match cfg.maxFailureCount with
       | some m => if st.failedTxnCount ≥ m then [ExitCodes.TooManyFailures] else []
       | none => []) ++
      (match cfg.maxFailureGasCost with
       | some m => if st.failedTxnGasCost ≥ m then [ExitCodes.TooMuchGasLost] else []
       | none => [])
    let st :=
      match cfg.maxFailureDuration with
      | some _ =>
        if st.failedTxnTimer = none ∨ cfg.resetTimerOnFailure then
          { st with failedTxnTimer := some fresh,
                    activeTimers := fresh :: st.activeTimers }
        else st
      | none => st
    (st, codes)

/-- The `setTimeout` callback installed by `handleFailedExecution`:
when the pending timer `t` fires it zeroes both failure counters and
clears the stored timer reference. -/
def timerFire (t : Nat) (st : ServiceState) : ServiceState :=
  { st with failedTxnCount := 0,
            failedTxnGasCost := 0,
            failedTxnTimer := none,
            activeTimers := st.activeTimers.filter (fun u => u ≠ t) }

/-- Outcome of awaiting `getEstimatedGasForOrder`: the call can throw
(`failure`), or resolve with a value; a resolved `0` stands for the
zero/undefined "no usable estimate" case the code tests with
`!estimatedGas`. -/
inductive GasEstimateResult where
  | failure
  | success (g : Nat)
deriving Repr, DecidableEq

/-- Outcome of awaiting `executeOrder`: it can throw, carrying an
optional receipt on the error object (`err.receipt`), or resolve with a
boolean result. -/
inductive ExecuteResult where
  | threw (receipt : Option Receipt)
  | resolved (b : Bool)
deriving Repr, DecidableEq

/-- Result of one `executeIfAppropriate` call: the updated service
state, the value returned to the caller, whether the `executeOrder`
collaborator was invoked (an execution attempt was made), and the exit
codes forwarded to `handleError` by the circuit breaker during the
call. -/
structure EvalResult where
  state : ServiceState
  returned : Bool
  attempted : Bool
  shutdownCodes : List Nat
deriving Repr, DecidableEq

/-- `executeIfAppropriate(order)`, the execution decision engine.  The
awaited collaborator results are inputs: `inTheMoney` from
`uniSwap.isInTheMoney`, `gasEstimate` from
`ethGasStation.getEstimatedGasForOrder`, `gasPrice` from
`ethGasStation.getPreferredGasPrice` (`0` stands for the falsy
"unavailable" case), `execResult` from `uniTrade.executeOrder`, and
`pairOf` resolves `getPairAddress` inside `removePoolOrder`.  `fresh`
is the timer identifier for a possible `setTimeout` in
`handleFailedExecution`. -/
def executeIfAppropriate (cfg : Config) (pairOf : Order → String) (inTheMoney : Bool)
    (gasEstimate : GasEstimateResult) (gasPrice : Nat) (execResult : ExecuteResult)
    (fresh : Nat) (order : Order) (st : ServiceState) : EvalResult :=
  if order.orderId ∈ st.orderLocks then
    { state := st, returned := false, attempted := false, shutdownCodes := [] }
  else if order.orderState ≠ OrderState.Placed then
    { state := st, returned := false, attempted := false, shutdownCodes := [] }
  else
    let st := lockOrder st order.orderId
    if inTheMoney then
      match gasEstimate with
      | .failure =>
        -- catch block: bump the bad-order counter, possibly evict, then
        -- `estimatedGas` is undefined so the `!estimatedGas` branch runs
        let newCount := (lookupBad st order.orderId).getD 0 + 1
        let st := setBad st order.orderId newCount
        let st :=
          if newCount > cfg.badOrderRetry then
            removePoolOrder pairOf st order.orderId order
          else st
        let st := unlockOrder st order.orderId
        { state := st, returned := false, attempted := false, shutdownCodes := [] }
      | .success g =>
        if g = 0 then
          let st := unlockOrder st order.orderId
          { state := st, returned := false, attempted := false, shutdownCodes := [] }
        else if gasPrice = 0 then
          let st := unlockOrder st order.orderId
          { state := st, returned := false, attempted := false, shutdownCodes := [] }
        else
          -- toBN(estimatedGas).mul(toBN(gasPrice)), arbitrary precision
          let gas := g * gasPrice
          if gas < order.executorFee then
            match execResult with
            | .resolved b =>
              -- `return await executeOrder(...)`: no unlock on this path
              { state := st, returned := b, attempted := true, shutdownCodes := [] }
            | .threw receipt =>
              let r := handleFailedExecution cfg fresh receipt st
              let st := unlockOrder r.1 order.orderId
              { state := st, returned := false, attempted := true, shutdownCodes := r.2 }
          else
            -- fee too low: log, fall through to the tail unlock/return
            let st := unlockOrder st order.orderId
            { state := st, returned := false, attempted := false, shutdownCodes := [] }
    else
      let st := unlockOrder st order.orderId
      { state := st, returned := false, attempted := false, shutdownCodes := [] }

/-- The block duplicated in the OrderCancelled and OrderExecuted data
handlers: `removePoolOrder(order.orderId, order)` followed by
"remove the subscription if no more orders", whose guard is
`!this.pools[pairAddress] || this.pools[pairAddress].getOrderCount()`
(pool absent, or its order count truthy i.e. nonzero); inside the guard
the pool listener (when present) and the pool are deleted. -/
def removeAndMaybeTeardown (pairOf : Order → String) (order : Order)
    (st : ServiceState) : ServiceState :=
  let st := removePoolOrder pairOf st order.orderId order
  let pair := pairOf order
  let cond :=
    match lookupPool st pair with
    | none => true
    | some p => p.getOrderCount ≠ 0
  if cond then
    { st with poolListeners := st.poolListeners.filter (fun q => q ≠ pair),
              pools := st.pools.filter (fun e => e.1 ≠ pair) }
  else st

/-- The OrderCancelled "data" handler (for an event whose
`returnValues` decode to `order`). -/
def orderCancelledHandler (pairOf : Order → String) (order : Order)
    (st : ServiceState) : ServiceState :=
  removeAndMaybeTeardown pairOf order st

/-- The OrderExecuted "data" handler.  `txnStatus` is the looked-up
transaction receipt's status (`none` when no receipt was found);
`hasReturnValues` tells whether the event carried decoded values.  A
failed receipt forwards the transaction hash to
`handleFailedExecution` (so gasUsed is absent there); otherwise the
order is removed and the teardown guard runs as in the cancelled
handler. -/
def orderExecutedHandler (cfg : Config) (fresh : Nat) (pairOf : Order → String)
    (txnStatus : Option Bool) (hasReturnValues : Bool) (order : Order)
    (st : ServiceState) : ServiceState × List Nat :=
  match txnStatus with
  | some false =>
    handleFailedExecution cfg fresh (some { transactionHash := "", gasUsed := none }) st
  | _ =>
    if hasReturnValues then
      (removeAndMaybeTeardown pairOf order st, [])
    else (st, [])

/-- The OrderPlaced "data" handler: evaluate the order immediately and,
when not executed, add it to its market pool. -/
def orderPlacedHandler (cfg : Config) (pairOf : Order → String) (inTheMoney : Bool)
    (gasEstimate : GasEstimateResult) (gasPrice : Nat) (execResult : ExecuteResult)
    (fresh : Nat) (order : Order) (st : ServiceState) : ServiceState × List Nat :=
  let r := executeIfAppropriate cfg pairOf inTheMoney gasEstimate gasPrice execResult fresh order st
  if r.returned then (r.state, r.shutdownCodes)
  else (addPoolOrder pairOf r.state order.orderId order, r.shutdownCodes)

/-- The loop body of the Sync "data" handler: iterate over the snapshot
of order keys, re-read each order from the (possibly updated) pool,
evaluate it, and on a truthy result remove it from the pool if the pool
is still present.  `collab` supplies the collaborator outcomes for each
order id. -/
def syncTickLoop (cfg : Config) (pairOf : Order → String)
    (collab : Nat → Bool × GasEstimateResult × Nat × ExecuteResult) (fresh : Nat)
    (pair : String) (orderIds : List Nat) (st : ServiceState) : ServiceState :=
  match orderIds with
  | [] => st
  | oid :: rest =>
    let st :=
      match lookupPool st pair with
      | none => st
      | some p =>
        match (p.orders.find? (fun e => e.1 = oid)).map (fun e => e.2) with
        | none => st
        | some order =>
          let c := collab oid
          let r := executeIfAppropriate cfg pairOf c.1 c.2.1 c.2.2.1 c.2.2.2 fresh order st
          if r.returned then
            match lookupPool r.state pair with
            | some p2 => setPool r.state pair (p2.removeOrder order.orderId)
            | none => r.state
          else r.state
    syncTickLoop cfg pairOf collab fresh pair rest st

/-- The Sync "data" handler installed by `createPoolChangeListener`:
if the pool is absent or its order count is zero, remove the
subscription and the pool; otherwise evaluate every order in the
pool. -/
def syncTickHandler (cfg : Config) (pairOf : Order → String)
    (collab : Nat → Bool × GasEstimateResult × Nat × ExecuteResult) (fresh : Nat)
    (pair : String) (st : ServiceState) : ServiceState :=
  let cond :=
    match lookupPool st pair with
    | none => true
    | some p => p.getOrderCount = 0
  if cond then
    { st with poolListeners := st.poolListeners.filter (fun q => q ≠ pair),
              pools := st.pools.filter (fun e => e.1 ≠ pair) }
  else
    match lookupPool st pair with
    | none => st
    | some p => syncTickLoop cfg pairOf collab fresh pair (p.orders.map (fun e => e.1)) st

/-- Result of `handleShutdown`: the state after listener teardown, the
exit code the webhook notification carried (if one was sent), and the
code passed to `process.exit`. -/
structure ShutdownResult where
  state : ServiceState
  notified : Option Nat
  exitCode : Nat
deriving Repr, DecidableEq

/-- `handleShutdown(exitCode)`: remove all listeners on every pool
subscription and every order-lifecycle subscription (and the failure
listener), send the webhook notification when
`exitCode > ExitCodes.GenericError` and a webhook URL is configured,
then `process.exit(exitCode)`.  The surrounding try/catch is embedded
through `teardownOk`: when the teardown body throws, the catch logs and
calls `process.exit(1)`. -/
def handleShutdown (webhookUrl : String) (teardownOk : Bool) (exitCode : Nat)
    (st : ServiceState) : ShutdownResult :=
  if teardownOk then
    let st := { st with poolListeners := [], orderListeners := [], failureListener := false }
    let notified :=
      if exitCode > ExitCodes.GenericError ∧ webhookUrl ≠ "" then some exitCode else none
    { state := st, notified := notified, exitCode := exitCode }
  else
    { state := st, notified := none, exitCode := 1 }

/-- Whether the registry currently tracks order `oid` inside the pool
for `pair` (used to state pool-membership properties). -/
def poolHasOrder (st : ServiceState) (pair : String) (oid : Nat) : Bool :=
  match lookupPool st pair with
  | some p => (p.orders.find? (fun e => e.1 = oid)).isSome
  | none => false

/-- The operations of the service that mutate its bookkeeping state:
one constructor per handler/entry point, carrying the collaborator
outcomes that operation would observe. -/
inductive ServiceOp where
  | evalOrder (cfg : Config) (pairOf : Order → String) (itm : Bool)
      (ge : GasEstimateResult) (gp : Nat) (er : ExecuteResult) (fresh : Nat) (o : Order)
  | placedEvt (cfg : Config) (pairOf : Order → String) (itm : Bool)
      (ge : GasEstimateResult) (gp : Nat) (er : ExecuteResult) (fresh : Nat) (o : Order)
  | cancelledEvt (pairOf : Order → String) (o : Order)
  | executedEvt (cfg : Config) (fresh : Nat) (pairOf : Order → String)
      (txnStatus : Option Bool) (hasReturnValues : Bool) (o : Order)
  | syncTick (cfg : Config) (pairOf : Order → String)
      (collab : Nat → Bool × GasEstimateResult × Nat × ExecuteResult) (fresh : Nat)
      (pair : String)
  | failure (cfg : Config) (fresh : Nat) (receipt : Option Receipt)
  | fireTimer (t : Nat)
  | addOrderOp (pairOf : Order → String) (oid : Nat) (o : Order)
  | removeOrderOp (pairOf : Order → String) (oid : Nat) (o : Order)
  | shutdownOp (webhookUrl : String) (teardownOk : Bool) (exitCode : Nat)

/-- The state transformation each service operation performs. -/
def applyOp (op : ServiceOp) (st : ServiceState) : ServiceState :=
  match op with
  | .evalOrder cfg pairOf itm ge gp er fresh o =>
    (executeIfAppropriate cfg pairOf itm ge gp er fresh o st).state
  | .placedEvt cfg pairOf itm ge gp er fresh o =>
    (orderPlacedHandler cfg pairOf itm ge gp er fresh o st).1
  | .cancelledEvt pairOf o => orderCancelledHandler pairOf o st
  | .executedEvt cfg fresh pairOf txnStatus hasReturnValues o =>
    (orderExecutedHandler cfg fresh pairOf txnStatus hasReturnValues o st).1
  | .syncTick cfg pairOf collab fresh pair => syncTickHandler cfg pairOf collab fresh pair st
  | .failure cfg fresh receipt => (handleFailedExecution cfg fresh receipt st).1
  | .fireTimer t => timerFire t st
  | .addOrderOp pairOf oid o => addPoolOrder pairOf st oid o
  | .removeOrderOp pairOf oid o => removePoolOrder pairOf st oid o
  | .shutdownOp webhookUrl teardownOk exitCode =>
    (handleShutdown webhookUrl teardownOk exitCode st).state

/-! Sample data for the concrete witnesses and counterexamples. -/

/-- A constant pair-address resolver used in concrete scenarios. -/
def samplePair : Order → String := fun _ => "P"

/-- A concrete placed order with executor fee 100. -/
def sampleOrder : Order :=
  { orderId := 1, orderType := 0, maker := "m", tokenIn := "A", tokenOut := "B",
    amountInOffered := 10, amountOutExpected := 20, executorFee := 100,
    totalEthDeposited := 0, orderState := OrderState.Placed, deflationary := false }

/-- A second placed order on the same market. -/
def sampleOrder2 : Order := { sampleOrder with orderId := 2 }

/-- The freshly constructed service state: every container empty. -/
def emptyState : ServiceState :=
  { orderLocks := [], badOrderMap := [], pools := [], poolListeners := [],
    orderListeners := [], failureListener := false, failedTxnCount := 0,
    failedTxnGasCost := 0, failedTxnTimer := none, activeTimers := [] }

/-- A concrete configuration: retry ceiling 3, failure thresholds 3
count / 1000000 gas, no failure window. -/
def sampleCfg : Config :=
  { badOrderRetry := 3, maxFailureCount := some 3, maxFailureGasCost := some 1000000,
    maxFailureDuration := none, resetTimerOnFailure := false,
    failureShutdownWebhookUrl := "" }

/-- A concrete failure receipt with 5 gas used. -/
def sampleReceipt : Receipt := { transactionHash := "t", gasUsed := some 5 }

/-- A configuration with a failure window (60 s) and reset-on-failure
enabled. -/
def timerCfg : Config :=
  { sampleCfg with maxFailureDuration := some 60000, resetTimerOnFailure := true }

/-- A state in which the failure-window timer with identifier 0 is
pending and stored in `failedTxnTimer`. -/
def timerState : ServiceState :=
  { emptyState with failedTxnTimer := some 0, activeTimers := [0] }

end UniTrade

/-! ## Lemmas about the association-list embedding of JavaScript objects -/

namespace UniTrade

theorem find_map_set {α β : Type} [DecidableEq α] (k : α) (v : β) (l : List (α × β))
    (h : (l.find? (fun e => e.1 = k)).isSome) :
    (l.map (fun e => if e.1 = k then (k, v) else e)).find? (fun e => e.1 = k) =
      some (k, v) := by
  induction l with
  | nil => simp at h
  | cons a l ih =>
    by_cases ha : a.1 = k
    · simp [ha]
    · simp only [List.find?_cons, ha, decide_eq_true_eq, if_false, decide_eq_false ha] at h
      simp only [List.map_cons, if_neg ha, List.find?_cons, decide_eq_false ha]
      exact ih h

theorem assocFind_assocSet_self {α β : Type} [DecidableEq α] (k : α) (v : β)
    (l : List (α × β)) :
    assocFind k (assocSet k v l) = some v := by
  unfold assocFind assocSet
  by_cases h : (l.find? (fun e => e.1 = k)).isSome
  · rw [if_pos h, find_map_set k v l h]
    rfl
  · rw [if_neg h]
    rw [List.find?_append]
    rw [Option.not_isSome_iff_eq_none] at h
    simp [h]

theorem find_assocErase_self {α β : Type} [DecidableEq α] (k : α) (l : List (α × β)) :
    ((assocErase k l).find? (fun e => e.1 = k)) = none := by
  rw [List.find?_eq_none]
  intro a ha
  simp only [assocErase, List.mem_filter, decide_not] at ha
  simpa using ha.2

theorem assocFind_assocErase_self {α β : Type} [DecidableEq α] (k : α)
    (l : List (α × β)) :
    assocFind k (assocErase k l) = none := by
  unfold assocFind
  rw [find_assocErase_self]
  rfl

theorem assocErase_of_find_eq_none {α β : Type} [DecidableEq α] (k : α)
    (l : List (α × β)) (h : l.find? (fun e => e.1 = k) = none) :
    assocErase k l = l := by
  rw [List.find?_eq_none] at h
  unfold assocErase
  rw [List.filter_eq_self]
  intro a ha
  simpa using h a ha

theorem lookupPool_setPool_self (st : ServiceState) (pair : String) (p : TokenPool) :
    lookupPool (setPool st pair p) pair = some p :=
  assocFind_assocSet_self pair p st.pools

theorem lookupBad_setBad_self (st : ServiceState) (i n : Nat) :
    lookupBad (setBad st i n) i = some n :=
  assocFind_assocSet_self i n st.badOrderMap

/-- C3: the claim states that adding then removing an order's only
entry leaves that market absent from the registry.  In the code
`removePoolOrder` only removes the order from the pool and never
deletes the pool itself, so after add-then-remove the (now empty) pool
is still present: the claim is false. -/
theorem C3_counterexample :
    ¬ (lookupPool
        (removePoolOrder samplePair (addPoolOrder samplePair emptyState 1 sampleOrder)
          1 sampleOrder)
        (samplePair sampleOrder) = none) := by decide

/-- C3 (amended): a pool is created lazily on first insertion for its
pair (together with its price-sync listener), adding then removing an
order's only entry leaves the market pool PRESENT in the registry but
empty (pool teardown happens only in the event/tick handlers), and
removing an order whose market has no pool is a no-op. -/
theorem C3_pool_lifecycle (pairOf : Order → String) (st : ServiceState) (o : Order)
    (i : Nat) (h : lookupPool st (pairOf o) = none) :
    lookupPool (addPoolOrder pairOf st i o) (pairOf o) =
      some { pairAddress := pairOf o, orders := [(i, o)] } ∧
    lookupPool (removePoolOrder pairOf (addPoolOrder pairOf st i o) i o) (pairOf o) =
      some { pairAddress := pairOf o, orders := [] } ∧
    removePoolOrder pairOf st i o = st := by
  have h1 : lookupPool (addPoolOrder pairOf st i o) (pairOf o) =
      some { pairAddress := pairOf o, orders := [(i, o)] } := by
    unfold addPoolOrder getOrCreatePool
    simp only [h]
    rw [lookupPool_setPool_self]
    simp [TokenPool.addOrder, assocSet]
  refine ⟨h1, ?_, ?_⟩
  · unfold removePoolOrder
    simp only [h1]
    rw [lookupPool_setPool_self]
    simp [TokenPool.removeOrder, assocErase]
  · unfold removePoolOrder
    simp only [h]

/-- C3 witness: the amended lifecycle property evaluated on a fresh
service state with one concrete order. -/
theorem C3_pool_lifecycle_witness :
    lookupPool emptyState (samplePair sampleOrder) = none ∧
    (lookupPool (addPoolOrder samplePair emptyState 1 sampleOrder)
        (samplePair sampleOrder) =
      some { pairAddress := samplePair sampleOrder, orders := [(1, sampleOrder)] } ∧
    lookupPool
        (removePoolOrder samplePair (addPoolOrder samplePair emptyState 1 sampleOrder)
          1 sampleOrder)
        (samplePair sampleOrder) =
      some { pairAddress := samplePair sampleOrder, orders := [] } ∧
    removePoolOrder samplePair emptyState 1 sampleOrder = emptyState) :=
  ⟨by decide, C3_pool_lifecycle samplePair emptyState sampleOrder 1 (by decide)⟩

theorem not_mem_filter_ne_self (l : List Nat) (i : Nat) :
    i ∉ l.filter (fun j => j ≠ i) := by
  simp [List.mem_filter]

/-- C1: for an order that passes the lock, state, profitability,
gas-estimate and gas-price checks, an execution attempt is made if and
only if `estimatedGas * gasPrice < executorFee` (computed in unbounded
`Nat` arithmetic, matching the `BN` arithmetic of the code); when the
cost is at or above the fee no attempt is made, the lock is released
and false is returned. -/
theorem C1_cost_gate (cfg : Config) (pairOf : Order → String) (g gasPrice fresh : Nat)
    (er : ExecuteResult) (o : Order) (st : ServiceState)
    (hlock : o.orderId ∉ st.orderLocks) (hstate : o.orderState = OrderState.Placed)
    (hg : g ≠ 0) (hgp : gasPrice ≠ 0) :
    ((executeIfAppropriate cfg pairOf true (.success g) gasPrice er fresh o st).attempted
        = true ↔ g * gasPrice < o.executorFee) ∧
    (o.executorFee ≤ g * gasPrice →
      (executeIfAppropriate cfg pairOf true (.success g) gasPrice er fresh o st).attempted
          = false ∧
      (executeIfAppropriate cfg pairOf true (.success g) gasPrice er fresh o st).returned
          = false ∧
      o.orderId ∉
        (executeIfAppropriate cfg pairOf true (.success g) gasPrice er fresh o st).state.orderLocks) := by
  have hns : ¬ (o.orderState ≠ OrderState.Placed) := by simp [hstate]
  unfold executeIfAppropriate
  rw [if_neg hlock, if_neg hns]
  by_cases hlt : g * gasPrice < o.executorFee
  · constructor
    · simp only [if_pos hlt, if_neg hg, if_neg hgp]
      cases er <;> simp [hlt]
    · intro hge
      exact absurd hlt (not_lt.mpr hge)
  · simp only [if_neg hlt, if_neg hg, if_neg hgp]
    constructor
    · simp [hlt]
    · intro _
      refine ⟨by simp, by simp, ?_⟩
      exact not_mem_filter_ne_self _ _

/-- C1 witness: order with fee 100; cost 99 is attempted, making the
hypotheses satisfiable, exercised through the theorem at gas 1, price
99. -/
theorem C1_cost_gate_witness :
    (sampleOrder.orderId ∉ emptyState.orderLocks ∧
     sampleOrder.orderState = OrderState.Placed ∧ (1 : Nat) ≠ 0 ∧ (99 : Nat) ≠ 0) ∧
    (((executeIfAppropriate sampleCfg samplePair true (.success 1) 99
        (.resolved true) 0 sampleOrder emptyState).attempted = true
       ↔ 1 * 99 < sampleOrder.executorFee) ∧
     (sampleOrder.executorFee ≤ 1 * 99 →
       (executeIfAppropriate sampleCfg samplePair true (.success 1) 99
          (.resolved true) 0 sampleOrder emptyState).attempted = false ∧
       (executeIfAppropriate sampleCfg samplePair true (.success 1) 99
          (.resolved true) 0 sampleOrder emptyState).returned = false ∧
       sampleOrder.orderId ∉
         (executeIfAppropriate sampleCfg samplePair true (.success 1) 99
            (.resolved true) 0 sampleOrder emptyState).state.orderLocks)) :=
  ⟨⟨by decide, by decide, by decide, by decide⟩,
   C1_cost_gate sampleCfg samplePair 1 99 0 (.resolved true) sampleOrder emptyState
     (by decide) (by decide) (by decide) (by decide)⟩

/-- C6: when the order id is already locked, or the order is not in the
Placed state, `executeIfAppropriate` returns false with the service
state unchanged and no collaborator influence (the result is the same
for every collaborator outcome). -/
theorem C6_skip_without_side_effects (cfg : Config) (pairOf : Order → String)
    (itm : Bool) (ge : GasEstimateResult) (gp : Nat) (er : ExecuteResult)
    (fresh : Nat) (o : Order) (st : ServiceState)
    (h : o.orderId ∈ st.orderLocks ∨ o.orderState ≠ OrderState.Placed) :
    executeIfAppropriate cfg pairOf itm ge gp er fresh o st =
      { state := st, returned := false, attempted := false, shutdownCodes := [] } := by
  unfold executeIfAppropriate
  by_cases hmem : o.orderId ∈ st.orderLocks
  · rw [if_pos hmem]
  · rw [if_neg hmem]
    rcases h with h | h
    · exact absurd h hmem
    · rw [if_pos h]

/-- C6 witness: a cancelled-state order is skipped with no state
change. -/
theorem C6_skip_without_side_effects_witness :
    (sampleOrder.orderId ∈ emptyState.orderLocks ∨
      { sampleOrder with orderState := OrderState.Cancelled }.orderState ≠
        OrderState.Placed) ∧
    executeIfAppropriate sampleCfg samplePair true (.success 1) 99 (.resolved true) 0
        { sampleOrder with orderState := OrderState.Cancelled } emptyState =
      { state := emptyState, returned := false, attempted := false,
        shutdownCodes := [] } :=
  ⟨Or.inr (by decide),
   C6_skip_without_side_effects sampleCfg samplePair true (.success 1) 99
     (.resolved true) 0 { sampleOrder with orderState := OrderState.Cancelled }
     emptyState (Or.inr (by decide))⟩

theorem removePoolOrder_badOrderMap (pairOf : Order → String) (st : ServiceState)
    (i : Nat) (o : Order) :
    (removePoolOrder pairOf st i o).badOrderMap = st.badOrderMap := by
  unfold removePoolOrder
  cases h : lookupPool st (pairOf o) <;> simp [h, setPool]

theorem removePoolOrder_orderLocks (pairOf : Order → String) (st : ServiceState)
    (i : Nat) (o : Order) :
    (removePoolOrder pairOf st i o).orderLocks = st.orderLocks := by
  unfold removePoolOrder
  cases h : lookupPool st (pairOf o) <;> simp [h, setPool]

theorem poolHasOrder_removePoolOrder_self (pairOf : Order → String) (st : ServiceState)
    (i : Nat) (o : Order) :
    poolHasOrder (removePoolOrder pairOf st i o) (pairOf o) i = false := by
  unfold removePoolOrder poolHasOrder
  cases h : lookupPool st (pairOf o) with
  | none => simp [h]
  | some pool =>
    simp [h, lookupPool_setPool_self, TokenPool.removeOrder, find_assocErase_self]

theorem poolHasOrder_eq_of_pools_eq (st1 st2 : ServiceState)
    (h : st1.pools = st2.pools) (pair : String) (oid : Nat) :
    poolHasOrder st1 pair oid = poolHasOrder st2 pair oid := by
  unfold poolHasOrder lookupPool
  rw [h]

theorem lookupBad_lockOrder (st : ServiceState) (i j : Nat) :
    lookupBad (lockOrder st i) j = lookupBad st j := rfl

theorem lookupBad_unlockOrder (st : ServiceState) (i j : Nat) :
    lookupBad (unlockOrder st i) j = lookupBad st j := rfl

theorem lookupBad_removePoolOrder (pairOf : Order → String) (st : ServiceState)
    (i : Nat) (o : Order) (j : Nat) :
    lookupBad (removePoolOrder pairOf st i o) j = lookupBad st j := by
  unfold lookupBad
  rw [removePoolOrder_badOrderMap]

theorem poolHasOrder_unlockOrder (st : ServiceState) (i : Nat) (pair : String)
    (oid : Nat) :
    poolHasOrder (unlockOrder st i) pair oid = poolHasOrder st pair oid := rfl

theorem poolHasOrder_setBad (st : ServiceState) (i n : Nat) (pair : String)
    (oid : Nat) :
    poolHasOrder (setBad st i n) pair oid = poolHasOrder st pair oid := rfl

theorem poolHasOrder_lockOrder (st : ServiceState) (i : Nat) (pair : String)
    (oid : Nat) :
    poolHasOrder (lockOrder st i) pair oid = poolHasOrder st pair oid := rfl

/-- Closed form of `executeIfAppropriate` on the skip paths: an already
locked order, or one not in the Placed state, is skipped with the state
untouched. -/
theorem executeIfAppropriate_skip_eq (cfg : Config) (pairOf : Order → String)
    (itm : Bool) (ge : GasEstimateResult) (gp : Nat) (er : ExecuteResult)
    (fresh : Nat) (o : Order) (st : ServiceState)
    (h : o.orderId ∈ st.orderLocks ∨ o.orderState ≠ OrderState.Placed) :
    executeIfAppropriate cfg pairOf itm ge gp er fresh o st =
      { state := st, returned := false, attempted := false, shutdownCodes := [] } := by
  unfold executeIfAppropriate
  by_cases hmem : o.orderId ∈ st.orderLocks
  · rw [if_pos hmem]
  · rw [if_neg hmem]
    rcases h with h | h
    · exact absurd h hmem
    · rw [if_pos h]

/-- Closed form of `executeIfAppropriate` when the order is lockable and
Placed but not in the money: lock then unlock, return false. -/
theorem executeIfAppropriate_notitm_eq (cfg : Config) (pairOf : Order → String)
    (ge : GasEstimateResult) (gp : Nat) (er : ExecuteResult) (fresh : Nat)
    (o : Order) (st : ServiceState)
    (hlock : o.orderId ∉ st.orderLocks) (hstate : o.orderState = OrderState.Placed) :
    executeIfAppropriate cfg pairOf false ge gp er fresh o st =
      { state := unlockOrder (lockOrder st o.orderId) o.orderId, returned := false,
        attempted := false, shutdownCodes := [] } := by
  have hns : ¬ (o.orderState ≠ OrderState.Placed) := by simp [hstate]
  unfold executeIfAppropriate
  rw [if_neg hlock, if_neg hns]
  rfl

/-- Closed form of `executeIfAppropriate` on the in-the-money path with
a resolved gas estimate: the zero-estimate, zero-price, cost-below-fee
(execution attempted) and fee-too-low cases. -/
theorem executeIfAppropriate_success_eq (cfg : Config) (pairOf : Order → String)
    (g gp fresh : Nat) (er : ExecuteResult) (o : Order) (st : ServiceState)
    (hlock : o.orderId ∉ st.orderLocks) (hstate : o.orderState = OrderState.Placed) :
    executeIfAppropriate cfg pairOf true (.success g) gp er fresh o st =
      (if g = 0 then
        { state := unlockOrder (lockOrder st o.orderId) o.orderId, returned := false,
          attempted := false, shutdownCodes := [] }
      else if gp = 0 then
        { state := unlockOrder (lockOrder st o.orderId) o.orderId, returned := false,
          attempted := false, shutdownCodes := [] }
      else if g * gp < o.executorFee then
        match er with
        | .resolved b =>
          { state := lockOrder st o.orderId, returned := b, attempted := true,
            shutdownCodes := [] }
        | .threw receipt =>
          { state := unlockOrder
              (handleFailedExecution cfg fresh receipt (lockOrder st o.orderId)).1
              o.orderId,
            returned := false, attempted := true,
            shutdownCodes :=
              (handleFailedExecution cfg fresh receipt (lockOrder st o.orderId)).2 }
      else
        { state := unlockOrder (lockOrder st o.orderId) o.orderId, returned := false,
          attempted := false, shutdownCodes := [] }) := by
  have hns : ¬ (o.orderState ≠ OrderState.Placed) := by simp [hstate]
  unfold executeIfAppropriate
  rw [if_neg hlock, if_neg hns]
  rfl

/-- Closed form of `executeIfAppropriate` on the gas-estimation-failure
path (in the money, estimate call throws): bump the retry counter,
evict from the pool when the ceiling is strictly exceeded, unlock,
return false with no attempt. -/
theorem executeIfAppropriate_failure_eq (cfg : Config) (pairOf : Order → String)
    (gp fresh : Nat) (er : ExecuteResult) (o : Order) (st : ServiceState)
    (hlock : o.orderId ∉ st.orderLocks) (hstate : o.orderState = OrderState.Placed) :
    executeIfAppropriate cfg pairOf true .failure gp er fresh o st =
      { state := unlockOrder
          (if (lookupBad st o.orderId).getD 0 + 1 > cfg.badOrderRetry then
            removePoolOrder pairOf
              (setBad (lockOrder st o.orderId) o.orderId
                ((lookupBad st o.orderId).getD 0 + 1)) o.orderId o
          else
            setBad (lockOrder st o.orderId) o.orderId
              ((lookupBad st o.orderId).getD 0 + 1))
          o.orderId,
        returned := false, attempted := false, shutdownCodes := [] } := by
  have hns : ¬ (o.orderState ≠ OrderState.Placed) := by simp [hstate]
  unfold executeIfAppropriate
  rw [if_neg hlock, if_neg hns]
  rfl

/-- C7: each gas-estimation failure bumps the order's retry counter by
one; the order is evicted from its pool exactly when the new count
strictly exceeds `badOrderRetry`; the lock is released, no attempt is
made and false is returned. -/
theorem C7_bad_order_retry (cfg : Config) (pairOf : Order → String) (gp fresh : Nat)
    (er : ExecuteResult) (o : Order) (st : ServiceState)
    (hlock : o.orderId ∉ st.orderLocks) (hstate : o.orderState = OrderState.Placed)
    (hin : poolHasOrder st (pairOf o) o.orderId = true) :
    lookupBad (executeIfAppropriate cfg pairOf true .failure gp er fresh o st).state
        o.orderId = some ((lookupBad st o.orderId).getD 0 + 1) ∧
    (poolHasOrder (executeIfAppropriate cfg pairOf true .failure gp er fresh o st).state
        (pairOf o) o.orderId = true ↔
      (lookupBad st o.orderId).getD 0 + 1 ≤ cfg.badOrderRetry) ∧
    (executeIfAppropriate cfg pairOf true .failure gp er fresh o st).returned = false ∧
    (executeIfAppropriate cfg pairOf true .failure gp er fresh o st).attempted = false ∧
    o.orderId ∉
      (executeIfAppropriate cfg pairOf true .failure gp er fresh o st).state.orderLocks := by
  rw [executeIfAppropriate_failure_eq cfg pairOf gp fresh er o st hlock hstate]
  by_cases hc : (lookupBad st o.orderId).getD 0 + 1 > cfg.badOrderRetry
  · rw [if_pos hc]
    refine ⟨?_, ?_, rfl, rfl, not_mem_filter_ne_self _ _⟩
    · rw [lookupBad_unlockOrder, lookupBad_removePoolOrder]
      exact lookupBad_setBad_self _ _ _
    · rw [poolHasOrder_unlockOrder, poolHasOrder_removePoolOrder_self]
      simp only [Bool.false_eq_true, false_iff]
      exact not_le.mpr hc
  · rw [if_neg hc]
    refine ⟨?_, ?_, rfl, rfl, not_mem_filter_ne_self _ _⟩
    · rw [lookupBad_unlockOrder]
      exact lookupBad_setBad_self _ _ _
    · rw [poolHasOrder_unlockOrder, poolHasOrder_setBad, poolHasOrder_lockOrder]
      simp [hin, not_lt.mp hc]

/-- C7 witness: a fresh order (no prior retries) fails estimation under
ceiling 3: counter becomes one, the order stays pooled, the lock is
free and false is returned. -/
theorem C7_bad_order_retry_witness :
    (sampleOrder.orderId ∉ (addPoolOrder samplePair emptyState 1 sampleOrder).orderLocks ∧
     sampleOrder.orderState = OrderState.Placed ∧
     poolHasOrder (addPoolOrder samplePair emptyState 1 sampleOrder)
       (samplePair sampleOrder) sampleOrder.orderId = true) ∧
    (lookupBad (executeIfAppropriate sampleCfg samplePair true .failure 99
        (.resolved true) 0 sampleOrder
        (addPoolOrder samplePair emptyState 1 sampleOrder)).state sampleOrder.orderId =
      some ((lookupBad (addPoolOrder samplePair emptyState 1 sampleOrder)
          sampleOrder.orderId).getD 0 + 1) ∧
    (poolHasOrder (executeIfAppropriate sampleCfg samplePair true .failure 99
        (.resolved true) 0 sampleOrder
        (addPoolOrder samplePair emptyState 1 sampleOrder)).state
        (samplePair sampleOrder) sampleOrder.orderId = true ↔
      (lookupBad (addPoolOrder samplePair emptyState 1 sampleOrder)
          sampleOrder.orderId).getD 0 + 1 ≤ sampleCfg.badOrderRetry) ∧
    (executeIfAppropriate sampleCfg samplePair true .failure 99 (.resolved true) 0
        sampleOrder (addPoolOrder samplePair emptyState 1 sampleOrder)).returned = false ∧
    (executeIfAppropriate sampleCfg samplePair true .failure 99 (.resolved true) 0
        sampleOrder (addPoolOrder samplePair emptyState 1 sampleOrder)).attempted = false ∧
    sampleOrder.orderId ∉
      (executeIfAppropriate sampleCfg samplePair true .failure 99 (.resolved true) 0
        sampleOrder (addPoolOrder samplePair emptyState 1 sampleOrder)).state.orderLocks) :=
  ⟨⟨by decide, by decide, by decide⟩,
   C7_bad_order_retry sampleCfg samplePair 99 0 (.resolved true) sampleOrder
     (addPoolOrder samplePair emptyState 1 sampleOrder) (by decide) (by decide)
     (by decide)⟩

theorem counters_le_handleFailedExecution (cfg : Config) (fresh : Nat)
    (receipt : Option Receipt) (st : ServiceState) :
    st.failedTxnCount ≤ (handleFailedExecution cfg fresh receipt st).1.failedTxnCount ∧
    st.failedTxnGasCost ≤ (handleFailedExecution cfg fresh receipt st).1.failedTxnGasCost := by
  unfold handleFailedExecution
  cases receipt with
  | none => exact ⟨le_refl _, le_refl _⟩
  | some r =>
    cases hd : cfg.maxFailureDuration with
    | none =>
      simp only [hd]
      exact ⟨Nat.le_add_right _ _, Nat.le_add_right _ _⟩
    | some d =>
      simp only [hd]
      split
      · exact ⟨Nat.le_add_right _ _, Nat.le_add_right _ _⟩
      · exact ⟨Nat.le_add_right _ _, Nat.le_add_right _ _⟩

/-- C4 counterexample: the failure recorder begins with
`if (!receipt) return;`, so a call without a receipt does not increment
the failure count, contradicting the claim that every call increments
it by one. -/
theorem C4_counterexample :
    ¬ ((handleFailedExecution sampleCfg 0 none emptyState).1.failedTxnCount =
        emptyState.failedTxnCount + 1) := by decide

/-- C4 (amended): every call with a (truthy) receipt increments the
failure count by 1 and the cumulative gas cost by the receipt's
gasUsed (0 if absent), and raises the TooManyFailures
(resp. TooMuchGasLost) shutdown exactly when the configured max-count
(resp. max-cost) threshold is reached; a call without a receipt is a
no-op.  In particular with maxCount = 3 the first two recorded
failures do not trip shutdown and the third does. -/
theorem C4_record_failure (cfg : Config) (fresh : Nat) (r : Receipt)
    (st : ServiceState) :
    (handleFailedExecution cfg fresh (some r) st).1.failedTxnCount =
      st.failedTxnCount + 1 ∧
    (handleFailedExecution cfg fresh (some r) st).1.failedTxnGasCost =
      st.failedTxnGasCost + r.gasUsed.getD 0 ∧
    (ExitCodes.TooManyFailures ∈ (handleFailedExecution cfg fresh (some r) st).2 ↔
      ∃ m, cfg.maxFailureCount = some m ∧ m ≤ st.failedTxnCount + 1) ∧
    (ExitCodes.TooMuchGasLost ∈ (handleFailedExecution cfg fresh (some r) st).2 ↔
      ∃ m, cfg.maxFailureGasCost = some m ∧
        m ≤ st.failedTxnGasCost + r.gasUsed.getD 0) ∧
    handleFailedExecution cfg fresh none st = (st, []) ∧
    (handleFailedExecution sampleCfg 1 (some sampleReceipt) emptyState).2 = [] ∧
    (handleFailedExecution sampleCfg 1 (some sampleReceipt)
      (handleFailedExecution sampleCfg 1 (some sampleReceipt) emptyState).1).2 = [] ∧
    ExitCodes.TooManyFailures ∈
      (handleFailedExecution sampleCfg 1 (some sampleReceipt)
        (handleFailedExecution sampleCfg 1 (some sampleReceipt)
          (handleFailedExecution sampleCfg 1 (some sampleReceipt) emptyState).1).1).2 := by
  refine ⟨?_, ?_, ?_, ?_, rfl, by decide, by decide, by decide⟩
  · unfold handleFailedExecution
    cases hd : cfg.maxFailureDuration with
    | none => rfl
    | some d =>
      simp only [hd]
      split <;> rfl
  · unfold handleFailedExecution
    cases hd : cfg.maxFailureDuration with
    | none => rfl
    | some d =>
      simp only [hd]
      split <;> rfl
  · unfold handleFailedExecution
    simp only [List.mem_append]
    rcases hm : cfg.maxFailureCount with _ | m <;>
      rcases hg : cfg.maxFailureGasCost with _ | mg <;>
        simp [hm, hg, ExitCodes.TooManyFailures, ExitCodes.TooMuchGasLost]
  · unfold handleFailedExecution
    simp only [List.mem_append]
    rcases hm : cfg.maxFailureCount with _ | m <;>
      rcases hg : cfg.maxFailureGasCost with _ | mg <;>
        simp [hm, hg, ExitCodes.TooManyFailures, ExitCodes.TooMuchGasLost]

/-- C4 witness: the amended recorder behaviour evaluated at a concrete
receipt and state. -/
theorem C4_record_failure_witness :
    (handleFailedExecution sampleCfg 0 (some sampleReceipt)
        timerState).1.failedTxnCount = timerState.failedTxnCount + 1 ∧
    (handleFailedExecution sampleCfg 0 (some sampleReceipt)
        timerState).1.failedTxnGasCost =
      timerState.failedTxnGasCost + sampleReceipt.gasUsed.getD 0 ∧
    (ExitCodes.TooManyFailures ∈
        (handleFailedExecution sampleCfg 0 (some sampleReceipt) timerState).2 ↔
      ∃ m, sampleCfg.maxFailureCount = some m ∧ m ≤ timerState.failedTxnCount + 1) ∧
    (ExitCodes.TooMuchGasLost ∈
        (handleFailedExecution sampleCfg 0 (some sampleReceipt) timerState).2 ↔
      ∃ m, sampleCfg.maxFailureGasCost = some m ∧
        m ≤ timerState.failedTxnGasCost + sampleReceipt.gasUsed.getD 0) ∧
    handleFailedExecution sampleCfg 0 none timerState = (timerState, []) ∧
    (handleFailedExecution sampleCfg 1 (some sampleReceipt) emptyState).2 = [] ∧
    (handleFailedExecution sampleCfg 1 (some sampleReceipt)
      (handleFailedExecution sampleCfg 1 (some sampleReceipt) emptyState).1).2 = [] ∧
    ExitCodes.TooManyFailures ∈
      (handleFailedExecution sampleCfg 1 (some sampleReceipt)
        (handleFailedExecution sampleCfg 1 (some sampleReceipt)
          (handleFailedExecution sampleCfg 1 (some sampleReceipt)
            emptyState).1).1).2 :=
  C4_record_failure sampleCfg 0 sampleReceipt timerState

/-- C5 counterexample: with a window configured, reset-on-failure
enabled and one timer already pending, recording a failure stores a
new `setTimeout` without clearing the old one (the code never calls
`clearTimeout`), so two timers are pending — the claimed at-most-one
invariant fails. -/
theorem C5_counterexample :
    ¬ ((handleFailedExecution timerCfg 1 (some sampleReceipt)
        timerState).1.activeTimers.length ≤ 1) := by decide

/-- C5 (amended): a recorded failure starts the timer when none is
active; when one is active and reset-on-failure is enabled a NEW timer
is started and its reference stored, but the old timer is never
cancelled and remains pending alongside the new one. -/
theorem C5_timer_restart_not_cancelled (cfg : Config) (st : ServiceState)
    (fresh : Nat) (r : Receipt) (hdur : cfg.maxFailureDuration.isSome = true) :
    (st.failedTxnTimer = none →
      (handleFailedExecution cfg fresh (some r) st).1.failedTxnTimer = some fresh ∧
      (handleFailedExecution cfg fresh (some r) st).1.activeTimers =
        fresh :: st.activeTimers) ∧
    (∀ t, st.failedTxnTimer = some t → cfg.resetTimerOnFailure = true →
      (handleFailedExecution cfg fresh (some r) st).1.failedTxnTimer = some fresh ∧
      (handleFailedExecution cfg fresh (some r) st).1.activeTimers =
        fresh :: st.activeTimers ∧
      (t ∈ st.activeTimers →
        t ∈ (handleFailedExecution cfg fresh (some r) st).1.activeTimers)) := by
  obtain ⟨d, hd⟩ := Option.isSome_iff_exists.mp hdur
  unfold handleFailedExecution
  constructor
  · intro hnone
    have hcond : ((st.failedTxnTimer = none ∨ cfg.resetTimerOnFailure = true)) :=
      Or.inl hnone
    simp only [hd]
    rw [if_pos (by exact Or.inl hnone)]
    exact ⟨rfl, rfl⟩
  · intro t ht hreset
    simp only [hd]
    rw [if_pos (by exact Or.inr hreset)]
    exact ⟨rfl, rfl, fun hmem => List.mem_cons_of_mem _ hmem⟩

/-- C5 witness: the amended behaviour exercised on the concrete
one-timer state: the new timer 1 is stored and the old timer 0 is
still pending. -/
theorem C5_timer_restart_not_cancelled_witness :
    timerCfg.maxFailureDuration.isSome = true ∧
    ((timerState.failedTxnTimer = none →
      (handleFailedExecution timerCfg 1 (some sampleReceipt)
        timerState).1.failedTxnTimer = some 1 ∧
      (handleFailedExecution timerCfg 1 (some sampleReceipt)
        timerState).1.activeTimers = 1 :: timerState.activeTimers) ∧
    (∀ t, timerState.failedTxnTimer = some t → timerCfg.resetTimerOnFailure = true →
      (handleFailedExecution timerCfg 1 (some sampleReceipt)
        timerState).1.failedTxnTimer = some 1 ∧
      (handleFailedExecution timerCfg 1 (some sampleReceipt)
        timerState).1.activeTimers = 1 :: timerState.activeTimers ∧
      (t ∈ timerState.activeTimers →
        t ∈ (handleFailedExecution timerCfg 1 (some sampleReceipt)
          timerState).1.activeTimers))) :=
  ⟨by decide, C5_timer_restart_not_cancelled timerCfg timerState 1 sampleReceipt
    (by decide)⟩

theorem counters_removePoolOrder (pairOf : Order → String) (st : ServiceState)
    (i : Nat) (o : Order) :
    (removePoolOrder pairOf st i o).failedTxnCount = st.failedTxnCount ∧
    (removePoolOrder pairOf st i o).failedTxnGasCost = st.failedTxnGasCost := by
  unfold removePoolOrder
  cases h : lookupPool st (pairOf o) <;> simp [h, setPool]

theorem counters_addPoolOrder (pairOf : Order → String) (st : ServiceState)
    (i : Nat) (o : Order) :
    (addPoolOrder pairOf st i o).failedTxnCount = st.failedTxnCount ∧
    (addPoolOrder pairOf st i o).failedTxnGasCost = st.failedTxnGasCost := by
  unfold addPoolOrder getOrCreatePool
  cases h : lookupPool st (pairOf o) <;> simp [h, setPool]

theorem counters_removeAndMaybeTeardown (pairOf : Order → String) (o : Order)
    (st : ServiceState) :
    (removeAndMaybeTeardown pairOf o st).failedTxnCount = st.failedTxnCount ∧
    (removeAndMaybeTeardown pairOf o st).failedTxnGasCost = st.failedTxnGasCost := by
  have h1 := counters_removePoolOrder pairOf st o.orderId o
  unfold removeAndMaybeTeardown
  dsimp only
  split
  · exact h1
  · exact h1

theorem counters_handleShutdown (url : String) (ok : Bool) (code : Nat)
    (st : ServiceState) :
    (handleShutdown url ok code st).state.failedTxnCount = st.failedTxnCount ∧
    (handleShutdown url ok code st).state.failedTxnGasCost = st.failedTxnGasCost := by
  unfold handleShutdown
  split
  · exact ⟨rfl, rfl⟩
  · exact ⟨rfl, rfl⟩

theorem counters_le_executeIfAppropriate (cfg : Config) (pairOf : Order → String)
    (itm : Bool) (ge : GasEstimateResult) (gp : Nat) (er : ExecuteResult)
    (fresh : Nat) (o : Order) (st : ServiceState) :
    st.failedTxnCount ≤
      (executeIfAppropriate cfg pairOf itm ge gp er fresh o st).state.failedTxnCount ∧
    st.failedTxnGasCost ≤
      (executeIfAppropriate cfg pairOf itm ge gp er fresh o st).state.failedTxnGasCost := by
  by_cases c1 : o.orderId ∈ st.orderLocks
  · rw [executeIfAppropriate_skip_eq cfg pairOf itm ge gp er fresh o st (Or.inl c1)]
    exact ⟨le_refl _, le_refl _⟩
  · by_cases c2 : o.orderState = OrderState.Placed
    · cases itm with
      | false =>
        rw [executeIfAppropriate_notitm_eq cfg pairOf ge gp er fresh o st c1 c2]
        exact ⟨le_refl _, le_refl _⟩
      | true =>
        cases ge with
        | failure =>
          rw [executeIfAppropriate_failure_eq cfg pairOf gp fresh er o st c1 c2]
          by_cases hc : (lookupBad st o.orderId).getD 0 + 1 > cfg.badOrderRetry
          · rw [if_pos hc]
            have h := counters_removePoolOrder pairOf
              (setBad (lockOrder st o.orderId) o.orderId
                ((lookupBad st o.orderId).getD 0 + 1)) o.orderId o
            exact ⟨le_of_eq h.1.symm, le_of_eq h.2.symm⟩
          · rw [if_neg hc]
            exact ⟨le_refl _, le_refl _⟩
        | success g =>
          rw [executeIfAppropriate_success_eq cfg pairOf g gp fresh er o st c1 c2]
          by_cases h0 : g = 0
          · rw [if_pos h0]
            exact ⟨le_refl _, le_refl _⟩
          · rw [if_neg h0]
            by_cases h1 : gp = 0
            · rw [if_pos h1]
              exact ⟨le_refl _, le_refl _⟩
            · rw [if_neg h1]
              by_cases h2 : g * gp < o.executorFee
              · rw [if_pos h2]
                cases er with
                | resolved b => exact ⟨le_refl _, le_refl _⟩
                | threw receipt =>
                  exact counters_le_handleFailedExecution cfg fresh receipt
                    (lockOrder st o.orderId)
              · rw [if_neg h2]
                exact ⟨le_refl _, le_refl _⟩
    · rw [executeIfAppropriate_skip_eq cfg pairOf itm ge gp er fresh o st (Or.inr c2)]
      exact ⟨le_refl _, le_refl _⟩

theorem counters_le_syncTickLoop (cfg : Config) (pairOf : Order → String)
    (collab : Nat → Bool × GasEstimateResult × Nat × ExecuteResult) (fresh : Nat)
    (pair : String) (orderIds : List Nat) (st : ServiceState) :
    st.failedTxnCount ≤
      (syncTickLoop cfg pairOf collab fresh pair orderIds st).failedTxnCount ∧
    st.failedTxnGasCost ≤
      (syncTickLoop cfg pairOf collab fresh pair orderIds st).failedTxnGasCost := by
  induction orderIds generalizing st with
  | nil => exact ⟨le_refl _, le_refl _⟩
  | cons oid rest ih =>
    unfold syncTickLoop
    cases h1 : lookupPool st pair with
    | none => exact ih st
    | some p =>
      cases h2 : (p.orders.find? (fun e => e.1 = oid)).map (fun e => e.2) with
      | none =>
        simp only [h1, h2]
        exact ih st
      | some order =>
        simp only [h1, h2]
        have hev := counters_le_executeIfAppropriate cfg pairOf (collab oid).1
          (collab oid).2.1 (collab oid).2.2.1 (collab oid).2.2.2 fresh order st
        split
        · set r := executeIfAppropriate cfg pairOf (collab oid).1 (collab oid).2.1
            (collab oid).2.2.1 (collab oid).2.2.2 fresh order st with hr
          cases h3 : lookupPool r.state pair with
          | some p2 =>
            have := ih (setPool r.state pair (p2.removeOrder order.orderId))
            refine ⟨le_trans (le_trans hev.1 (le_of_eq rfl)) this.1,
              le_trans (le_trans hev.2 (le_of_eq rfl)) this.2⟩
          | none => exact ⟨le_trans hev.1 (ih _).1, le_trans hev.2 (ih _).2⟩
        · exact ⟨le_trans hev.1 (ih _).1, le_trans hev.2 (ih _).2⟩

theorem counters_le_syncTickHandler (cfg : Config) (pairOf : Order → String)
    (collab : Nat → Bool × GasEstimateResult × Nat × ExecuteResult) (fresh : Nat)
    (pair : String) (st : ServiceState) :
    st.failedTxnCount ≤
      (syncTickHandler cfg pairOf collab fresh pair st).failedTxnCount ∧
    st.failedTxnGasCost ≤
      (syncTickHandler cfg pairOf collab fresh pair st).failedTxnGasCost := by
  unfold syncTickHandler
  cases h : lookupPool st pair with
  | none => exact ⟨le_refl _, le_refl _⟩
  | some p =>
    by_cases hz : p.getOrderCount = 0
    · rw [if_pos (by simp [hz])]
      exact ⟨le_refl _, le_refl _⟩
    · rw [if_neg (by simp [hz])]
      exact counters_le_syncTickLoop cfg pairOf collab fresh pair
        (p.orders.map (fun e => e.1)) st

theorem counters_le_orderPlacedHandler (cfg : Config) (pairOf : Order → String)
    (itm : Bool) (ge : GasEstimateResult) (gp : Nat) (er : ExecuteResult)
    (fresh : Nat) (o : Order) (st : ServiceState) :
    st.failedTxnCount ≤
      (orderPlacedHandler cfg pairOf itm ge gp er fresh o st).1.failedTxnCount ∧
    st.failedTxnGasCost ≤
      (orderPlacedHandler cfg pairOf itm ge gp er fresh o st).1.failedTxnGasCost := by
  have h1 := counters_le_executeIfAppropriate cfg pairOf itm ge gp er fresh o st
  unfold orderPlacedHandler
  dsimp only
  by_cases hr : (executeIfAppropriate cfg pairOf itm ge gp er fresh o st).returned = true
  · rw [if_pos hr]
    exact h1
  · rw [if_neg hr]
    have h2 := counters_addPoolOrder pairOf
      (executeIfAppropriate cfg pairOf itm ge gp er fresh o st).state o.orderId o
    exact ⟨le_trans h1.1 (le_of_eq h2.1.symm), le_trans h1.2 (le_of_eq h2.2.symm)⟩

theorem counters_le_orderExecutedHandler (cfg : Config) (fresh : Nat)
    (pairOf : Order → String) (txnStatus : Option Bool) (hasReturnValues : Bool)
    (o : Order) (st : ServiceState) :
    st.failedTxnCount ≤
      (orderExecutedHandler cfg fresh pairOf txnStatus hasReturnValues o
        st).1.failedTxnCount ∧
    st.failedTxnGasCost ≤
      (orderExecutedHandler cfg fresh pairOf txnStatus hasReturnValues o
        st).1.failedTxnGasCost := by
  unfold orderExecutedHandler
  cases txnStatus with
  | none =>
    dsimp only
    by_cases hv : hasReturnValues = true
    · rw [if_pos hv]
      have h := counters_removeAndMaybeTeardown pairOf o st
      exact ⟨le_of_eq h.1.symm, le_of_eq h.2.symm⟩
    · rw [if_neg hv]
      exact ⟨le_refl _, le_refl _⟩
  | some b =>
    cases b with
    | false => exact counters_le_handleFailedExecution cfg fresh _ st
    | true =>
      dsimp only
      by_cases hv : hasReturnValues = true
      · rw [if_pos hv]
        have h := counters_removeAndMaybeTeardown pairOf o st
        exact ⟨le_of_eq h.1.symm, le_of_eq h.2.symm⟩
      · rw [if_neg hv]
        exact ⟨le_refl _, le_refl _⟩

/-- C9: with reset-on-failure disabled, a failure recorded while a
timer is active leaves the timer state untouched (the window is not
extended); timer firing resets both counters to zero and clears the
stored reference; and no service operation other than timer firing
decreases either counter. -/
theorem C9_window_reset (cfg : Config) (st : ServiceState) (fresh t : Nat)
    (r : Receipt) (op : ServiceOp) (st2 : ServiceState)
    (hreset : cfg.resetTimerOnFailure = false) (hact : st.failedTxnTimer = some t)
    (hop : ∀ u, op ≠ ServiceOp.fireTimer u) :
    (handleFailedExecution cfg fresh (some r) st).1.failedTxnTimer = some t ∧
    (handleFailedExecution cfg fresh (some r) st).1.activeTimers = st.activeTimers ∧
    (timerFire t st).failedTxnCount = 0 ∧
    (timerFire t st).failedTxnGasCost = 0 ∧
    (timerFire t st).failedTxnTimer = none ∧
    st2.failedTxnCount ≤ (applyOp op st2).failedTxnCount ∧
    st2.failedTxnGasCost ≤ (applyOp op st2).failedTxnGasCost := by
  have htimer : (handleFailedExecution cfg fresh (some r) st).1.failedTxnTimer = some t ∧
      (handleFailedExecution cfg fresh (some r) st).1.activeTimers = st.activeTimers := by
    unfold handleFailedExecution
    cases hd : cfg.maxFailureDuration with
    | none => exact ⟨hact, rfl⟩
    | some d =>
      simp only [hd]
      rw [if_neg (by simp [hact, hreset])]
      exact ⟨hact, rfl⟩
  have hmono : st2.failedTxnCount ≤ (applyOp op st2).failedTxnCount ∧
      st2.failedTxnGasCost ≤ (applyOp op st2).failedTxnGasCost := by
    cases op with
    | evalOrder cfg1 pairOf itm ge gp er fresh1 o =>
      exact counters_le_executeIfAppropriate cfg1 pairOf itm ge gp er fresh1 o st2
    | placedEvt cfg1 pairOf itm ge gp er fresh1 o =>
      exact counters_le_orderPlacedHandler cfg1 pairOf itm ge gp er fresh1 o st2
    | cancelledEvt pairOf o =>
      have h := counters_removeAndMaybeTeardown pairOf o st2
      exact ⟨le_of_eq h.1.symm, le_of_eq h.2.symm⟩
    | executedEvt cfg1 fresh1 pairOf txnStatus hasReturnValues o =>
      exact counters_le_orderExecutedHandler cfg1 fresh1 pairOf txnStatus
        hasReturnValues o st2
    | syncTick cfg1 pairOf collab fresh1 pair =>
      exact counters_le_syncTickHandler cfg1 pairOf collab fresh1 pair st2
    | failure cfg1 fresh1 receipt =>
      exact counters_le_handleFailedExecution cfg1 fresh1 receipt st2
    | fireTimer u => exact absurd rfl (hop u)
    | addOrderOp pairOf oid o =>
      have h := counters_addPoolOrder pairOf st2 oid o
      exact ⟨le_of_eq h.1.symm, le_of_eq h.2.symm⟩
    | removeOrderOp pairOf oid o =>
      have h := counters_removePoolOrder pairOf st2 oid o
      exact ⟨le_of_eq h.1.symm, le_of_eq h.2.symm⟩
    | shutdownOp url ok code =>
      have h := counters_handleShutdown url ok code st2
      exact ⟨le_of_eq h.1.symm, le_of_eq h.2.symm⟩
  exact ⟨htimer.1, htimer.2, rfl, rfl, rfl, hmono.1, hmono.2⟩

/-- C9 witness: the reset behaviour at the concrete one-timer state
(reset-on-failure disabled in `sampleCfg`), with monotonicity
instantiated at a no-receipt failure-recorder call. -/
theorem C9_window_reset_witness :
    (sampleCfg.resetTimerOnFailure = false ∧
     timerState.failedTxnTimer = some 0) ∧
    ((handleFailedExecution sampleCfg 1 (some sampleReceipt)
        timerState).1.failedTxnTimer = some 0 ∧
    (handleFailedExecution sampleCfg 1 (some sampleReceipt)
        timerState).1.activeTimers = timerState.activeTimers ∧
    (timerFire 0 timerState).failedTxnCount = 0 ∧
    (timerFire 0 timerState).failedTxnGasCost = 0 ∧
    (timerFire 0 timerState).failedTxnTimer = none ∧
    timerState.failedTxnCount ≤
      (applyOp (ServiceOp.failure sampleCfg 1 none) timerState).failedTxnCount ∧
    timerState.failedTxnGasCost ≤
      (applyOp (ServiceOp.failure sampleCfg 1 none) timerState).failedTxnGasCost) :=
  ⟨⟨by decide, by decide⟩,
   C9_window_reset sampleCfg timerState 1 0 sampleReceipt
     (ServiceOp.failure sampleCfg 1 none) timerState (by decide) (by decide)
     (fun u h => ServiceOp.noConfusion h)⟩

/-- C2: the OrderCancelled/OrderExecuted teardown guard is
`!pool || pool.getOrderCount()` — inverted with respect to the
"remove the subscription if no more orders" comment above it and to
the Sync-tick handler's `!pool.getOrderCount()`.  Cancelling the only
order of a market leaves the now-empty pool AND its price-sync
listener in place, while cancelling one of two orders tears down the
pool and listener although an order remains; the executed-event
handler shares the same guard. -/
theorem C2_teardown_inverted :
    (lookupPool (orderCancelledHandler samplePair sampleOrder
        (addPoolOrder samplePair emptyState 1 sampleOrder)) "P" =
      some { pairAddress := "P", orders := [] } ∧
     "P" ∈ (orderCancelledHandler samplePair sampleOrder
        (addPoolOrder samplePair emptyState 1 sampleOrder)).poolListeners) ∧
    (lookupPool (orderCancelledHandler samplePair sampleOrder
        (addPoolOrder samplePair (addPoolOrder samplePair emptyState 1 sampleOrder)
          2 sampleOrder2)) "P" = none ∧
     "P" ∉ (orderCancelledHandler samplePair sampleOrder
        (addPoolOrder samplePair (addPoolOrder samplePair emptyState 1 sampleOrder)
          2 sampleOrder2)).poolListeners) ∧
    (lookupPool (orderExecutedHandler sampleCfg 0 samplePair (some true) true
        sampleOrder (addPoolOrder samplePair emptyState 1 sampleOrder)).1 "P" =
      some { pairAddress := "P", orders := [] } ∧
     "P" ∈ (orderExecutedHandler sampleCfg 0 samplePair (some true) true
        sampleOrder (addPoolOrder samplePair emptyState 1 sampleOrder)).1.poolListeners) := by
  decide

/-- C8 counterexample: the GenericError exit code (1) signals an
abnormal fatal condition (it is the code `handleError` shuts down
with), yet even with a webhook URL configured no notification is sent
for it: the guard requires `exitCode > ExitCodes.GenericError`. -/
theorem C8_counterexample :
    ¬ ((handleShutdown "hook" true ExitCodes.GenericError emptyState).notified =
        some ExitCodes.GenericError) := by decide

/-- C8 (amended): shutdown removes all listeners on every market
subscription, every order-lifecycle subscription and the failure
listener, then exits with the given code; the webhook notification
carrying the exit code is sent exactly for exit codes STRICTLY greater
than GenericError (the circuit-breaker codes) when a webhook URL is
configured — the GenericError fatal path never notifies; if teardown
itself throws, the process still exits with the generic failure
code. -/
theorem C8_shutdown_behaviour (url : String) (ok : Bool) (code : Nat)
    (st : ServiceState) :
    (ok = true →
      (handleShutdown url ok code st).state.poolListeners = [] ∧
      (handleShutdown url ok code st).state.orderListeners = [] ∧
      (handleShutdown url ok code st).state.failureListener = false ∧
      (handleShutdown url ok code st).exitCode = code ∧
      ((handleShutdown url ok code st).notified = some code ↔
        (ExitCodes.GenericError < code ∧ url ≠ ""))) ∧
    (ok = false →
      (handleShutdown url ok code st).exitCode = ExitCodes.GenericError ∧
      (handleShutdown url ok code st).notified = none) := by
  constructor
  · intro hok
    subst hok
    unfold handleShutdown
    by_cases hc : ExitCodes.GenericError < code ∧ url ≠ ""
    · simp [hc]
    · simp [hc]
  · intro hok
    subst hok
    unfold handleShutdown
    exact ⟨rfl, rfl⟩

/-- C8 witness: the amended behaviour at the TooManyFailures exit code
with a configured webhook. -/
theorem C8_shutdown_behaviour_witness :
    ((true : Bool) = true →
      (handleShutdown "hook" true ExitCodes.TooManyFailures emptyState).state.poolListeners = [] ∧
      (handleShutdown "hook" true ExitCodes.TooManyFailures emptyState).state.orderListeners = [] ∧
      (handleShutdown "hook" true ExitCodes.TooManyFailures emptyState).state.failureListener = false ∧
      (handleShutdown "hook" true ExitCodes.TooManyFailures emptyState).exitCode =
        ExitCodes.TooManyFailures ∧
      ((handleShutdown "hook" true ExitCodes.TooManyFailures emptyState).notified =
          some ExitCodes.TooManyFailures ↔
        (ExitCodes.GenericError < ExitCodes.TooManyFailures ∧ ("hook" : String) ≠ ""))) ∧
    ((true : Bool) = false →
      (handleShutdown "hook" true ExitCodes.TooManyFailures emptyState).exitCode =
        ExitCodes.GenericError ∧
      (handleShutdown "hook" true ExitCodes.TooManyFailures emptyState).notified = none) :=
  C8_shutdown_behaviour "hook" true ExitCodes.TooManyFailures emptyState

theorem mem_lockOrder_self (st : ServiceState) (j : Nat) :
    j ∈ (lockOrder st j).orderLocks := by
  show j ∈ (if j ∈ st.orderLocks then st.orderLocks else st.orderLocks ++ [j])
  by_cases h : j ∈ st.orderLocks
  · rwa [if_pos h]
  · rw [if_neg h]
    exact List.mem_append_right _ (List.mem_singleton.mpr rfl)

theorem mem_lockOrder_of_mem (st : ServiceState) (i j : Nat)
    (h : i ∈ st.orderLocks) : i ∈ (lockOrder st j).orderLocks := by
  show i ∈ (if j ∈ st.orderLocks then st.orderLocks else st.orderLocks ++ [j])
  by_cases hj : j ∈ st.orderLocks
  · rwa [if_pos hj]
  · rw [if_neg hj]
    exact List.mem_append_left _ h

theorem mem_unlockOrder_of_mem_ne (st : ServiceState) (i j : Nat)
    (h : i ∈ st.orderLocks) (hne : i ≠ j) : i ∈ (unlockOrder st j).orderLocks := by
  show i ∈ st.orderLocks.filter (fun x => x ≠ j)
  simp [List.mem_filter, h, hne]

theorem handleFailedExecution_orderLocks (cfg : Config) (fresh : Nat)
    (receipt : Option Receipt) (st : ServiceState) :
    (handleFailedExecution cfg fresh receipt st).1.orderLocks = st.orderLocks := by
  unfold handleFailedExecution
  cases receipt with
  | none => rfl
  | some r =>
    cases hd : cfg.maxFailureDuration with
    | none => rfl
    | some d =>
      simp only [hd]
      split <;> rfl

theorem addPoolOrder_orderLocks (pairOf : Order → String) (st : ServiceState)
    (i : Nat) (o : Order) :
    (addPoolOrder pairOf st i o).orderLocks = st.orderLocks := by
  unfold addPoolOrder getOrCreatePool
  cases h : lookupPool st (pairOf o) <;> simp [h, setPool]

theorem removeAndMaybeTeardown_orderLocks (pairOf : Order → String) (o : Order)
    (st : ServiceState) :
    (removeAndMaybeTeardown pairOf o st).orderLocks = st.orderLocks := by
  unfold removeAndMaybeTeardown
  dsimp only
  split
  · exact removePoolOrder_orderLocks pairOf st o.orderId o
  · exact removePoolOrder_orderLocks pairOf st o.orderId o

theorem handleShutdown_orderLocks (url : String) (ok : Bool) (code : Nat)
    (st : ServiceState) :
    (handleShutdown url ok code st).state.orderLocks = st.orderLocks := by
  unfold handleShutdown
  split <;> rfl

theorem locks_preserved_executeIfAppropriate (cfg : Config)
    (pairOf : Order → String) (itm : Bool) (ge : GasEstimateResult) (gp : Nat)
    (er : ExecuteResult) (fresh : Nat) (o : Order) (st : ServiceState) (oid : Nat)
    (h : oid ∈ st.orderLocks) :
    oid ∈ (executeIfAppropriate cfg pairOf itm ge gp er fresh o st).state.orderLocks := by
  by_cases c1 : o.orderId ∈ st.orderLocks
  · rw [executeIfAppropriate_skip_eq cfg pairOf itm ge gp er fresh o st (Or.inl c1)]
    exact h
  · have hne : oid ≠ o.orderId := fun he => c1 (he ▸ h)
    have hlk : oid ∈ (lockOrder st o.orderId).orderLocks := mem_lockOrder_of_mem st oid _ h
    by_cases c2 : o.orderState = OrderState.Placed
    · cases itm with
      | false =>
        rw [executeIfAppropriate_notitm_eq cfg pairOf ge gp er fresh o st c1 c2]
        exact mem_unlockOrder_of_mem_ne _ _ _ hlk hne
      | true =>
        cases ge with
        | failure =>
          rw [executeIfAppropriate_failure_eq cfg pairOf gp fresh er o st c1 c2]
          by_cases hc : (lookupBad st o.orderId).getD 0 + 1 > cfg.badOrderRetry
          · rw [if_pos hc]
            refine mem_unlockOrder_of_mem_ne _ _ _ ?_ hne
            rw [removePoolOrder_orderLocks]
            exact hlk
          · rw [if_neg hc]
            exact mem_unlockOrder_of_mem_ne _ _ _ hlk hne
        | success g =>
          rw [executeIfAppropriate_success_eq cfg pairOf g gp fresh er o st c1 c2]
          by_cases h0 : g = 0
          · rw [if_pos h0]
            exact mem_unlockOrder_of_mem_ne _ _ _ hlk hne
          · rw [if_neg h0]
            by_cases h1 : gp = 0
            · rw [if_pos h1]
              exact mem_unlockOrder_of_mem_ne _ _ _ hlk hne
            · rw [if_neg h1]
              by_cases h2 : g * gp < o.executorFee
              · rw [if_pos h2]
                cases er with
                | resolved b => exact hlk
                | threw receipt =>
                  refine mem_unlockOrder_of_mem_ne _ _ _ ?_ hne
                  rw [handleFailedExecution_orderLocks]
                  exact hlk
              · rw [if_neg h2]
                exact mem_unlockOrder_of_mem_ne _ _ _ hlk hne
    · rw [executeIfAppropriate_skip_eq cfg pairOf itm ge gp er fresh o st (Or.inr c2)]
      exact h

theorem locks_preserved_syncTickLoop (cfg : Config) (pairOf : Order → String)
    (collab : Nat → Bool × GasEstimateResult × Nat × ExecuteResult) (fresh : Nat)
    (pair : String) (orderIds : List Nat) (st : ServiceState) (oid : Nat)
    (h : oid ∈ st.orderLocks) :
    oid ∈ (syncTickLoop cfg pairOf collab fresh pair orderIds st).orderLocks := by
  induction orderIds generalizing st with
  | nil => exact h
  | cons oid2 rest ih =>
    unfold syncTickLoop
    cases h1 : lookupPool st pair with
    | none => exact ih st h
    | some p =>
      cases h2 : (p.orders.find? (fun e => e.1 = oid2)).map (fun e => e.2) with
      | none =>
        simp only [h1, h2]
        exact ih st h
      | some order =>
        simp only [h1, h2]
        have hev := locks_preserved_executeIfAppropriate cfg pairOf (collab oid2).1
          (collab oid2).2.1 (collab oid2).2.2.1 (collab oid2).2.2.2 fresh order st oid h
        by_cases hr : (executeIfAppropriate cfg pairOf (collab oid2).1 (collab oid2).2.1
            (collab oid2).2.2.1 (collab oid2).2.2.2 fresh order st).returned = true
        · rw [if_pos hr]
          cases h3 : lookupPool (executeIfAppropriate cfg pairOf (collab oid2).1
              (collab oid2).2.1 (collab oid2).2.2.1 (collab oid2).2.2.2 fresh order
              st).state pair with
          | some p2 =>
            simp only [h3]
            exact ih _ hev
          | none =>
            simp only [h3]
            exact ih _ hev
        · rw [if_neg hr]
          exact ih _ hev

theorem locks_preserved_syncTickHandler (cfg : Config) (pairOf : Order → String)
    (collab : Nat → Bool × GasEstimateResult × Nat × ExecuteResult) (fresh : Nat)
    (pair : String) (st : ServiceState) (oid : Nat) (h : oid ∈ st.orderLocks) :
    oid ∈ (syncTickHandler cfg pairOf collab fresh pair st).orderLocks := by
  unfold syncTickHandler
  cases h1 : lookupPool st pair with
  | none => exact h
  | some p =>
    by_cases hz : p.getOrderCount = 0
    · rw [if_pos (by simp [hz])]
      exact h
    · rw [if_neg (by simp [hz])]
      exact locks_preserved_syncTickLoop cfg pairOf collab fresh pair
        (p.orders.map (fun e => e.1)) st oid h

theorem poolHasOrder_addPoolOrder_self (pairOf : Order → String) (st : ServiceState)
    (i : Nat) (o : Order) :
    poolHasOrder (addPoolOrder pairOf st i o) (pairOf o) i = true := by
  have hfind : ∀ (l : List (Nat × Order)),
      ((assocSet i o l).find? (fun e => e.1 = i)).isSome = true := by
    intro l
    have h := assocFind_assocSet_self i o l
    unfold assocFind at h
    cases hf : (assocSet i o l).find? (fun e => e.1 = i) with
    | none => rw [hf] at h; simp at h
    | some e => rfl
  unfold addPoolOrder getOrCreatePool
  cases hl : lookupPool st (pairOf o) with
  | some p =>
    simp only [hl]
    unfold poolHasOrder
    rw [lookupPool_setPool_self]
    exact hfind p.orders
  | none =>
    simp only [hl]
    unfold poolHasOrder
    rw [lookupPool_setPool_self]
    exact hfind []

/-- Every service operation preserves membership of an order id in the
execution lock set: once locked, no handler ever removes the id (the
only removals, inside `executeIfAppropriate`, are guarded by the
initial lock check or apply to the evaluated order itself before its
lock is taken). -/
theorem locks_preserved_applyOp (op : ServiceOp) (st : ServiceState) (oid : Nat)
    (h : oid ∈ st.orderLocks) : oid ∈ (applyOp op st).orderLocks := by
  cases op with
  | evalOrder cfg1 pairOf itm ge gp er fresh1 o =>
    exact locks_preserved_executeIfAppropriate cfg1 pairOf itm ge gp er fresh1 o st
      oid h
  | placedEvt cfg1 pairOf itm ge gp er fresh1 o =>
    show oid ∈ (orderPlacedHandler cfg1 pairOf itm ge gp er fresh1 o st).1.orderLocks
    have hev := locks_preserved_executeIfAppropriate cfg1 pairOf itm ge gp er fresh1
      o st oid h
    unfold orderPlacedHandler
    dsimp only
    by_cases hr : (executeIfAppropriate cfg1 pairOf itm ge gp er fresh1 o
        st).returned = true
    · rw [if_pos hr]
      exact hev
    · rw [if_neg hr]
      show oid ∈ (addPoolOrder pairOf
        (executeIfAppropriate cfg1 pairOf itm ge gp er fresh1 o st).state o.orderId
        o).orderLocks
      rw [addPoolOrder_orderLocks]
      exact hev
  | cancelledEvt pairOf o =>
    show oid ∈ (orderCancelledHandler pairOf o st).orderLocks
    unfold orderCancelledHandler
    rw [removeAndMaybeTeardown_orderLocks]
    exact h
  | executedEvt cfg1 fresh1 pairOf txnStatus hasReturnValues o =>
    show oid ∈
      (orderExecutedHandler cfg1 fresh1 pairOf txnStatus hasReturnValues o
        st).1.orderLocks
    unfold orderExecutedHandler
    cases txnStatus with
    | none =>
      dsimp only
      by_cases hv : hasReturnValues = true
      · rw [if_pos hv]
        rw [show ((removeAndMaybeTeardown pairOf o st, ([] : List Nat)) :
            ServiceState × List Nat).1 = removeAndMaybeTeardown pairOf o st from rfl]
        rw [removeAndMaybeTeardown_orderLocks]
        exact h
      · rw [if_neg hv]
        exact h
    | some b =>
      cases b with
      | false =>
        rw [handleFailedExecution_orderLocks]
        exact h
      | true =>
        dsimp only
        by_cases hv : hasReturnValues = true
        · rw [if_pos hv]
          rw [show ((removeAndMaybeTeardown pairOf o st, ([] : List Nat)) :
              ServiceState × List Nat).1 = removeAndMaybeTeardown pairOf o st from rfl]
          rw [removeAndMaybeTeardown_orderLocks]
          exact h
        · rw [if_neg hv]
          exact h
  | syncTick cfg1 pairOf collab fresh1 pair =>
    exact locks_preserved_syncTickHandler cfg1 pairOf collab fresh1 pair st oid h
  | failure cfg1 fresh1 receipt =>
    show oid ∈ (handleFailedExecution cfg1 fresh1 receipt st).1.orderLocks
    rw [handleFailedExecution_orderLocks]
    exact h
  | fireTimer t => exact h
  | addOrderOp pairOf oid2 o =>
    show oid ∈ (addPoolOrder pairOf st oid2 o).orderLocks
    rw [addPoolOrder_orderLocks]
    exact h
  | removeOrderOp pairOf oid2 o =>
    show oid ∈ (removePoolOrder pairOf st oid2 o).orderLocks
    rw [removePoolOrder_orderLocks]
    exact h
  | shutdownOp url ok code =>
    show oid ∈ (handleShutdown url ok code st).state.orderLocks
    rw [handleShutdown_orderLocks]
    exact h

/-- C10: when `executeOrder` resolves without throwing, the order id
stays in the execution lock set (the resolve path performs no unlock),
no later service operation ever removes an id from the lock set, a
locked order's evaluation always returns false with the state
unchanged, and in particular after a falsy resolution the OrderPlaced
handler re-inserts the order into its pool while its id remains
locked. -/
theorem C10_lock_never_released (cfg : Config) (pairOf : Order → String)
    (g gp fresh : Nat) (b : Bool) (o : Order) (st : ServiceState)
    (hlock : o.orderId ∉ st.orderLocks) (hstate : o.orderState = OrderState.Placed)
    (hg : g ≠ 0) (hgp : gp ≠ 0) (hlt : g * gp < o.executorFee) :
    o.orderId ∈ (executeIfAppropriate cfg pairOf true (.success g) gp (.resolved b)
        fresh o st).state.orderLocks ∧
    (executeIfAppropriate cfg pairOf true (.success g) gp (.resolved b) fresh o
        st).returned = b ∧
    (∀ op : ServiceOp, ∀ st2 : ServiceState, ∀ oid : Nat,
      oid ∈ st2.orderLocks → oid ∈ (applyOp op st2).orderLocks) ∧
    (∀ cfg2 : Config, ∀ pairOf2 : Order → String, ∀ itm : Bool,
      ∀ ge : GasEstimateResult, ∀ gp2 : Nat, ∀ er : ExecuteResult, ∀ fresh2 : Nat,
      ∀ o2 : Order, ∀ st2 : ServiceState, o2.orderId ∈ st2.orderLocks →
      executeIfAppropriate cfg2 pairOf2 itm ge gp2 er fresh2 o2 st2 =
        { state := st2, returned := false, attempted := false, shutdownCodes := [] }) ∧
    (b = false →
      o.orderId ∈ (orderPlacedHandler cfg pairOf true (.success g) gp (.resolved b)
          fresh o st).1.orderLocks ∧
      poolHasOrder (orderPlacedHandler cfg pairOf true (.success g) gp (.resolved b)
          fresh o st).1 (pairOf o) o.orderId = true) := by
  have heq : executeIfAppropriate cfg pairOf true (.success g) gp (.resolved b)
      fresh o st =
      { state := lockOrder st o.orderId, returned := b, attempted := true,
        shutdownCodes := [] } := by
    rw [executeIfAppropriate_success_eq cfg pairOf g gp fresh (.resolved b) o st
      hlock hstate]
    rw [if_neg hg, if_neg hgp, if_pos hlt]
  refine ⟨?_, ?_, ?_, ?_, ?_⟩
  · rw [heq]
    exact mem_lockOrder_self st o.orderId
  · rw [heq]
  · intro op st2 oid hmem
    exact locks_preserved_applyOp op st2 oid hmem
  · intro cfg2 pairOf2 itm ge gp2 er fresh2 o2 st2 hmem
    exact executeIfAppropriate_skip_eq cfg2 pairOf2 itm ge gp2 er fresh2 o2 st2
      (Or.inl hmem)
  · intro hb
    unfold orderPlacedHandler
    dsimp only
    rw [if_neg (by rw [heq, hb]; exact Bool.false_ne_true)]
    constructor
    · show o.orderId ∈ (addPoolOrder pairOf
        (executeIfAppropriate cfg pairOf true (.success g) gp (.resolved b) fresh o
          st).state o.orderId o).orderLocks
      rw [addPoolOrder_orderLocks, heq]
      exact mem_lockOrder_self st o.orderId
    · exact poolHasOrder_addPoolOrder_self pairOf _ o.orderId o

/-- C10 witness: gas 1, price 50, fee 100, resolution false: the order
is re-pooled while still locked. -/
theorem C10_lock_never_released_witness :
    (sampleOrder.orderId ∉ emptyState.orderLocks ∧
     sampleOrder.orderState = OrderState.Placed ∧ (1 : Nat) ≠ 0 ∧ (50 : Nat) ≠ 0 ∧
     1 * 50 < sampleOrder.executorFee) ∧
    (sampleOrder.orderId ∈ (executeIfAppropriate sampleCfg samplePair true
        (.success 1) 50 (.resolved false) 0 sampleOrder emptyState).state.orderLocks ∧
    (executeIfAppropriate sampleCfg samplePair true (.success 1) 50 (.resolved false)
        0 sampleOrder emptyState).returned = false ∧
    (∀ op : ServiceOp, ∀ st2 : ServiceState, ∀ oid : Nat,
      oid ∈ st2.orderLocks → oid ∈ (applyOp op st2).orderLocks) ∧
    (∀ cfg2 : Config, ∀ pairOf2 : Order → String, ∀ itm : Bool,
      ∀ ge : GasEstimateResult, ∀ gp2 : Nat, ∀ er : ExecuteResult, ∀ fresh2 : Nat,
      ∀ o2 : Order, ∀ st2 : ServiceState, o2.orderId ∈ st2.orderLocks →
      executeIfAppropriate cfg2 pairOf2 itm ge gp2 er fresh2 o2 st2 =
        { state := st2, returned := false, attempted := false, shutdownCodes := [] }) ∧
    ((false : Bool) = false →
      sampleOrder.orderId ∈ (orderPlacedHandler sampleCfg samplePair true (.success 1)
          50 (.resolved false) 0 sampleOrder emptyState).1.orderLocks ∧
      poolHasOrder (orderPlacedHandler sampleCfg samplePair true (.success 1) 50
          (.resolved false) 0 sampleOrder emptyState).1 (samplePair sampleOrder)
        sampleOrder.orderId = true)) :=
  ⟨⟨by decide, by decide, by decide, by decide, by decide⟩,
   C10_lock_never_released sampleCfg samplePair 1 50 0 false sampleOrder emptyState
     (by decide) (by decide) (by decide) (by decide) (by decide)⟩

end UniTrade
